import Mathlib

/-!
Verification of `Customize_Seq2Seq/runs/01_Teacher_Forcing/tools.py`.

The file shallowly embeds the pure control-flow and arithmetic parts of the
training / inference tools: the teacher-forcing schedule generator
`cal_teacher_forcing_ratio`, the accuracy computation of
`Trainer.loss_accuracy`, the validation-metric averaging of `Trainer.val`,
the training loop's interrupt handling and ratio indexing (`Trainer.train`),
and the `Translation` helpers (`padding`, `src_input`, `tar_input`,
`get_test_loader`, `batch_transform`).

Ratios and metric scalars are modelled as rationals; token ids as naturals.
Where the Python code can raise, the embedding returns `Except`/`Option`;
where an IEEE float operation produces NaN (0.0/0 in `torch.div`), the
embedding returns `none`.
-/

namespace Tools

/-- Embeds `np.linspace(0.0, 1.0, num=k)`: `k` evenly spaced points from 0 to 1
inclusive of both endpoints, i.e. `i/(k-1)` for `i = 0..k-1`.  For `k = 1`
numpy yields `[0.0]` (the start point), which the formula also gives because
division by zero is 0 in `ℚ`; for `k = 0` the list is empty. -/
def linspace01 (k : Nat) : List ℚ :=
  (List.range k).map (fun (i : Nat) => (i : ℚ) / ((k : ℚ) - 1))

/-- Embeds `cal_teacher_forcing_ratio(learning_method, total_step)`
(tools.py lines 17-31).  `Teacher_Forcing` gives the constant-1.0 list;
`Scheduled_Sampling` gives `np.linspace(0.0, 1.0, num=total_step)[::-1]`;
`Mixed_Sampling` gives `int(total_step/2)` ones followed by
`np.linspace(0.0, 1.0, num=int(total_step/2))[::-1]`; any other name raises
`NotImplementedError`, embedded as `Except.error`. -/
def cal_teacher_forcing_ratio (learning_method : String) (total_step : Nat) :
    Except String (List ℚ) :=
  if learning_method = "Teacher_Forcing" then
    .ok (List.replicate total_step (1 : ℚ))
  else if learning_method = "Scheduled_Sampling" then
    .ok (linspace01 total_step).reverse
  else if learning_method = "Mixed_Sampling" then
    .ok (List.replicate (total_step / 2) (1 : ℚ) ++ (linspace01 (total_step / 2)).reverse)
  else
    .error "learning method must choice [Teacher_Forcing, Scheduled_Sampling]"

/-- The list payload of a successful schedule computation (the empty list for
the error case; every claim below only uses it on supported strategy names). -/
def scheduleList (e : Except String (List ℚ)) : List ℚ :=
  match e with
  | .ok l => l
  | .error _ => []

/-- Embeds the accuracy denominator of `Trainer.loss_accuracy`
(tools.py lines 193-198): `invalid_targets = tar.eq(pad_id)` and
`total = ` the number of positions with `invalid_targets == 0`, i.e. the
number of non-pad positions of the flattened target tensor. -/
def accuracy_total (tar : List Nat) (pad_id : Nat) : Nat :=
  tar.countP (fun t => t ≠ pad_id)

/-- Embeds the accuracy numerator of `Trainer.loss_accuracy` (tools.py
line 199): `equal.masked_fill_(invalid_targets, 0).long().sum()` — the number
of positions where the argmax prediction equals the target and the target is
not the pad id.  `preds` is the flattened `out.max(-1)[1]`. -/
def accuracy_hits (preds tar : List Nat) (pad_id : Nat) : Nat :=
  (preds.zip tar).countP (fun pt => pt.2 ≠ pad_id ∧ pt.1 = pt.2)

/-- Embeds the final accuracy of `Trainer.loss_accuracy` (tools.py line 199):
`torch.div(hits.to(float32), total)`.  The float division is unguarded; when
`total = 0` the numerator is also 0 (`accuracy_hits_le_total` below) and IEEE
`0.0 / 0` is NaN, which the embedding renders as `none`.  Otherwise the
quotient is an exact rational (`some`). -/
def loss_accuracy_acc (preds tar : List Nat) (pad_id : Nat) : Option ℚ :=
  if accuracy_total tar pad_id = 0 then none
  else some ((accuracy_hits preds tar pad_id : ℚ) / (accuracy_total tar pad_id : ℚ))

end Tools

namespace Trainer

/-- One iteration of the inner loop of `Trainer.train`, as seen by the
`try`/`except` at tools.py 72-121: either the body runs to completion, or a
`KeyboardInterrupt` arrives somewhere inside it. -/
inductive BatchEvent where
  | ok
  | interrupt
deriving DecidableEq

/-- The loop-visible training state of `Trainer.train`: the global `step`
counter (tools.py 68, 117), the checkpoints written by `model_save` — each
records the `epoch` and `step` arguments passed at tools.py 111 and 121 —
and a count of loop iterations executed. -/
structure TrainState where
  step : Nat
  saves : List (Nat × Nat)
  processed : Nat
deriving DecidableEq

/-- Embeds one iteration of the inner `for` of `Trainer.train`
(tools.py 71-121).  On a normal batch the body writes a periodic checkpoint
when `step % step_save == 0` (lines 109-111) and then increments `step`
(line 117).  When a `KeyboardInterrupt` is raised inside the `try`, the
`except` clause (lines 120-121) calls `model_save` with the current `epoch`
and `step` and does not re-raise: control falls through to the next loop
iteration and `step` is not incremented. -/
def trainBatch (step_save epoch : Nat) (s : TrainState) : BatchEvent → TrainState
  | .ok =>
      if s.step % step_save = 0 then
        ⟨s.step + 1, s.saves ++ [(epoch, s.step)], s.processed + 1⟩
      else
        ⟨s.step + 1, s.saves, s.processed + 1⟩
  | .interrupt =>
      ⟨s.step, s.saves ++ [(epoch, s.step)], s.processed + 1⟩

/-- The inner `for i, data in enumerate(self.train_loader, 0)` loop of
`Trainer.train` for one epoch. -/
def trainEpoch (step_save epoch : Nat) : TrainState → List BatchEvent → TrainState
  | s, [] => s
  | s, ev :: rest => trainEpoch step_save epoch (trainBatch step_save epoch s ev) rest

/-- The outer `for epoch in range(self.args.epochs)` loop of `Trainer.train`,
starting at a given epoch index. -/
def trainFrom (step_save : Nat) : Nat → TrainState → List (List BatchEvent) → TrainState
  | _, s, [] => s
  | e, s, evs :: rest => trainFrom step_save (e + 1) (trainEpoch step_save e s evs) rest

/-- A whole `Trainer.train` run over the given per-epoch batch events:
epochs enumerate from 0, `step = 0`, no checkpoints yet. -/
def trainRun (step_save : Nat) (events : List (List BatchEvent)) : TrainState :=
  trainFrom step_save 0 ⟨0, [], 0⟩ events

/-- tools.py line 63: `epoch_step = len(self.train_loader) + 1`, where
`len(self.train_loader)` is the number of batches per epoch. -/
def epoch_step (num_batches : Nat) : Nat := num_batches + 1

/-- tools.py line 64: `total_step = self.args.epochs * epoch_step`. -/
def total_step (epochs num_batches : Nat) : Nat := epochs * epoch_step num_batches

/-- tools.py line 65: the training teacher-forcing schedule
`cal_teacher_forcing_ratio(learning_method, total_step)`. -/
def train_ratios (method : String) (epochs num_batches : Nat) : List ℚ :=
  Tools.scheduleList (Tools.cal_teacher_forcing_ratio method (total_step epochs num_batches))

/-- tools.py line 75: `model(..., teacher_forcing_rate=train_ratios[i])` —
the ratio used for the forward pass of batch `i` of epoch `epoch` is entry
`i` of the schedule, where `i` is the `enumerate` counter that restarts at 0
every epoch (the `epoch` argument is not consulted). -/
def ratio_used (method : String) (epochs num_batches _epoch i : Nat) : Option ℚ :=
  (train_ratios method epochs num_batches)[i]?

/-- The running totals of `Trainer.val` (tools.py 203-218): `total_loss`,
`total_accuracy`, `total_ppl` and the batch counter `count`. -/
structure ValAcc where
  total_loss : ℚ
  total_accuracy : ℚ
  total_ppl : ℚ
  count : Nat
deriving DecidableEq

/-- One iteration of the `for data in self.val_loader` loop of `Trainer.val`
(tools.py 208-218): the three per-batch scalars are added to the running
totals and `count` is incremented.  The model forward pass itself is
external, so the pass is modelled by the list of per-batch
`(loss.item(), accuracy.item(), ppl)` triples it produces. -/
def valStep (acc : ValAcc) (m : ℚ × ℚ × ℚ) : ValAcc :=
  ⟨acc.total_loss + m.1, acc.total_accuracy + m.2.1, acc.total_ppl + m.2.2, acc.count + 1⟩

/-- The totals after the whole loop of `Trainer.val`, starting from zeros. -/
def valTotals (batches : List (ℚ × ℚ × ℚ)) : ValAcc :=
  batches.foldl valStep ⟨0, 0, 0, 0⟩

/-- The value returned by `Trainer.val` (tools.py 230-233):
`(total_loss / count, total_accuracy / count, total_ppl / count)`.  On an
empty validation pass the divisions raise `ZeroDivisionError`, embedded as
`none`. -/
def val (batches : List (ℚ × ℚ × ℚ)) : Option (ℚ × ℚ × ℚ) :=
  let a := valTotals batches
  if a.count = 0 then none
  else some (a.total_loss / a.count, a.total_accuracy / a.count, a.total_ppl / a.count)

end Trainer

namespace Translation

/-- The special-token ids the `Translation` class looks up on a vocabulary
(the SentencePiece object itself is external; only `voc[<pad>]` and
`voc[<s>]` are consumed). -/
structure Voca where
  pad : Nat
  start : Nat

/-- Embeds `Translation.padding(idx_list, padding_id)` (tools.py 304-310):
lists shorter than `seq_len` are extended with `padding_id`, all others are
cut to their first `seq_len` entries. -/
def padding (seq_len : Nat) (idx_list : List Nat) (padding_id : Nat) : List Nat :=
  if idx_list.length < seq_len then
    idx_list ++ List.replicate (seq_len - idx_list.length) padding_id
  else
    idx_list.take seq_len

/-- Embeds `Translation.src_input(sentence)` (tools.py 294-297): the encoded
ids `ko_voc.EncodeAsIds(sentence)` (external tokenizer, taken here as the
input list) padded with `ko_voc[<pad>]`. -/
def src_input (ko_voc : Voca) (seq_len : Nat) (ids : List Nat) : List Nat :=
  padding seq_len ids ko_voc.pad

/-- Embeds `Translation.tar_input()` (tools.py 299-302): the one-element list
`[en_voc[<s>]]` padded with the Korean vocabulary pad id `ko_voc[<pad>]`
(the source-language pad id, not the English one). -/
def tar_input (ko_voc en_voc : Voca) (seq_len : Nat) : List Nat :=
  padding seq_len [en_voc.start] ko_voc.pad

/-- Embeds `Translation.get_test_loader` (tools.py 322-332): all lines of the
two files are read and the first `batch_size` of each are returned
(`src_list[:batch_size]`, `tar_list[:batch_size]`). -/
def get_test_loader (batch_size : Nat) (src_lines tar_lines : List String) :
    List String × List String :=
  (src_lines.take batch_size, tar_lines.take batch_size)

/-- Embeds the input-validation prefix of `Translation.batch_transform`
(tools.py 347-356): fetch the batch from `get_test_loader`, raise
`ValueError` (embedded as `.error`) when `len(src_list) > batch_size`, and
otherwise run the model on the batch; the `.ok` payload is the list of
source sentences the model is invoked on. -/
def batch_transform (batch_size : Nat) (src_lines tar_lines : List String) :
    Except String (List String) :=
  let loaded := get_test_loader batch_size src_lines tar_lines
  if batch_size < loaded.1.length then
    .error "You must sentence size less than batch_size"
  else
    .ok loaded.1

/-- Embeds the decoding loop of `Translation.batch_transform`
(tools.py 362-365): `for i in range(0, len(indices), seq_len)` with
`end = i + seq_len - 1` and slice `indices[i:end]` — chunk `j` of the
flattened argmax indices is `indices[j*seq_len : j*seq_len + seq_len - 1]`,
and the loop runs `ceil(len(indices) / seq_len)` times. -/
def batch_decode_slices (seq_len : Nat) (indices : List Nat) : List (List Nat) :=
  (List.range ((indices.length + seq_len - 1) / seq_len)).map
    (fun j => (indices.drop (j * seq_len)).take (seq_len - 1))

end Translation

theorem length_linspace01 (k : Nat) : (Tools.linspace01 k).length = k := by
  rw [Tools.linspace01, List.length_map, List.length_range]

theorem linspace01_one : Tools.linspace01 1 = [(0 : ℚ)] := by
  norm_num [Tools.linspace01, List.range_succ]

theorem scheduleList_teacher_forcing (n : Nat) :
    Tools.scheduleList (Tools.cal_teacher_forcing_ratio "Teacher_Forcing" n) =
      List.replicate n (1 : ℚ) := rfl

theorem scheduleList_scheduled_sampling (n : Nat) :
    Tools.scheduleList (Tools.cal_teacher_forcing_ratio "Scheduled_Sampling" n) =
      (Tools.linspace01 n).reverse := rfl

theorem scheduleList_mixed_sampling (n : Nat) :
    Tools.scheduleList (Tools.cal_teacher_forcing_ratio "Mixed_Sampling" n) =
      List.replicate (n / 2) (1 : ℚ) ++ (Tools.linspace01 (n / 2)).reverse := rfl

theorem accuracy_hits_le_total (preds tar : List Nat) (pad_id : Nat) :
    Tools.accuracy_hits preds tar pad_id ≤ Tools.accuracy_total tar pad_id := by
  induction preds generalizing tar with
  | nil => simp [Tools.accuracy_hits]
  | cons p ps ih =>
    cases tar with
    | nil => simp [Tools.accuracy_hits, Tools.accuracy_total]
    | cons t ts =>
      have h := ih ts
      simp only [Tools.accuracy_hits, Tools.accuracy_total, List.zip_cons_cons,
        List.countP_cons, decide_not, Bool.decide_and] at h ⊢
      by_cases hpad : t = pad_id <;> by_cases heq : p = t <;>
        simp [hpad, heq] <;> omega

/-- C5 counterexample: at `n = 3` the claimed identity fails.  The code's
`Mixed_Sampling` schedule for 3 total steps is `[1, 0]` (length 2), while
`Teacher_Forcing(3//2) ++ Scheduled_Sampling(3 - 3//2)` is `[1, 1, 0]`
(length 3). -/
theorem C5_counterexample :
    Tools.scheduleList (Tools.cal_teacher_forcing_ratio "Mixed_Sampling" 3) ≠
      Tools.scheduleList (Tools.cal_teacher_forcing_ratio "Teacher_Forcing" (3 / 2)) ++
        Tools.scheduleList (Tools.cal_teacher_forcing_ratio "Scheduled_Sampling" (3 - 3 / 2)) := by
  intro h
  have h2 := congrArg List.length h
  rw [scheduleList_mixed_sampling, scheduleList_teacher_forcing,
    scheduleList_scheduled_sampling] at h2
  simp [length_linspace01] at h2

/-- C5 amended: for every `n`, `Mixed_Sampling(n)` equals
`Teacher_Forcing(n//2) ++ Scheduled_Sampling(n//2)` — the second part spans
`n//2` points (not `n - n//2`), so the total length is `2*(n//2)`, which is
`n - 1` for odd `n`. -/
theorem C5_mixed_schedule_concat (n : Nat) :
    Tools.scheduleList (Tools.cal_teacher_forcing_ratio "Mixed_Sampling" n) =
      Tools.scheduleList (Tools.cal_teacher_forcing_ratio "Teacher_Forcing" (n / 2)) ++
        Tools.scheduleList (Tools.cal_teacher_forcing_ratio "Scheduled_Sampling" (n / 2)) ∧
    (Tools.scheduleList (Tools.cal_teacher_forcing_ratio "Mixed_Sampling" n)).length =
      2 * (n / 2) := by
  refine ⟨rfl, ?_⟩
  simp [scheduleList_mixed_sampling, length_linspace01]
  ring

/-- C6 counterexample: `Scheduled_Sampling` at `total_step = 1` yields the
single value 0.0 (the end of the interpolation, since
`np.linspace(0, 1, num=1)` is `[0.0]` and reversing keeps it), not 1.0 as the
claim states. -/
theorem C6_counterexample :
    Tools.scheduleList (Tools.cal_teacher_forcing_ratio "Scheduled_Sampling" 1) = [(0 : ℚ)] ∧
      (0 : ℚ) ≠ 1 := by
  rw [scheduleList_scheduled_sampling, linspace01_one]
  norm_num

/-- C6 amended: `total_step = 0` produces the empty schedule for all three
supported strategies, and `Scheduled_Sampling` at `total_step = 1` produces
exactly one element whose value is 0.0 (not 1.0). -/
theorem C6_zero_and_one_step :
    Tools.scheduleList (Tools.cal_teacher_forcing_ratio "Teacher_Forcing" 0) = [] ∧
    Tools.scheduleList (Tools.cal_teacher_forcing_ratio "Scheduled_Sampling" 0) = [] ∧
    Tools.scheduleList (Tools.cal_teacher_forcing_ratio "Mixed_Sampling" 0) = [] ∧
    Tools.scheduleList (Tools.cal_teacher_forcing_ratio "Scheduled_Sampling" 1) = [(0 : ℚ)] := by
  refine ⟨rfl, rfl, rfl, ?_⟩
  rw [scheduleList_scheduled_sampling, linspace01_one, List.reverse_singleton]

/-- C2 counterexample: for the batch whose flattened targets are `[0, 0, 0]`
with `pad_id = 0` (every target position is the pad id) and argmax
predictions `[1, 2, 3]`, `loss_accuracy` does not return accuracy 0: the
unguarded `torch.div` computes 0.0/0, which is NaN (modelled `none`). -/
theorem C2_counterexample :
    Tools.loss_accuracy_acc [1, 2, 3] [0, 0, 0] 0 ≠ some 0 ∧
      Tools.loss_accuracy_acc [1, 2, 3] [0, 0, 0] 0 = none := by
  constructor <;> decide

/-- C2 amended: for every batch in which every target position equals the pad
id, the non-pad count `total` is 0 and the accuracy produced by the unguarded
float division is NaN (`none`), not 0; no exception is raised (the
computation is total, so loss and perplexity are still computed and the run
continues), but the zero-denominator case is not guarded. -/
theorem C2_all_pad_accuracy_nan (preds tar : List Nat) (pad_id : Nat)
    (h : ∀ t ∈ tar, t = pad_id) :
    Tools.accuracy_total tar pad_id = 0 ∧
      Tools.loss_accuracy_acc preds tar pad_id = none := by
  have htot : Tools.accuracy_total tar pad_id = 0 := by
    rw [Tools.accuracy_total, List.countP_eq_zero]
    intro a ha
    simpa using h a ha
  exact ⟨htot, by simp [Tools.loss_accuracy_acc, htot]⟩

/-- C2 witness: the amended theorem applied to the all-pad batch `[7, 7]`
with `pad_id = 7`. -/
theorem C2_all_pad_accuracy_nan_witness :
    Tools.accuracy_total [7, 7] 7 = 0 ∧ Tools.loss_accuracy_acc [5, 6] [7, 7] 7 = none :=
  C2_all_pad_accuracy_nan [5, 6] [7, 7] 7 (by decide)

/-- C3 counterexample: an input file with 101 sentences exceeds the
configured bound `batch_size = 100`, yet `batch_transform` does not fail:
`get_test_loader` silently truncates to the first 100 sentences, the length
guard never fires, and the model is invoked on the truncated batch. -/
theorem C3_counterexample :
    100 < (List.replicate 101 "a").length ∧
      Translation.batch_transform 100 (List.replicate 101 "a") (List.replicate 101 "b") =
        .ok (List.replicate 100 "a") := by
  constructor
  · simp
  · norm_num [Translation.batch_transform, Translation.get_test_loader,
      List.take_replicate]

/-- C3 amended: for every pair of input files and every batch bound,
`batch_transform` never raises: `get_test_loader` already truncates the
file to its first `batch_size` sentences, so `len(src_list) > batch_size`
is always false and the model is invoked on the truncated batch. -/
theorem C3_batch_transform_truncates (batch_size : Nat) (src_lines tar_lines : List String) :
    Translation.batch_transform batch_size src_lines tar_lines =
      .ok (src_lines.take batch_size) := by
  have h : ¬ batch_size < (src_lines.take batch_size).length := by
    simp [List.length_take]
  simp [Translation.batch_transform, Translation.get_test_loader, h]

/-- C8: encodings longer than `seq_len` are truncated to exactly their first
`seq_len` tokens (no failure is possible: `src_input` is a total function),
and encodings shorter than `seq_len` are padded with the pad id to exactly
`seq_len` tokens. -/
theorem C8_src_input_pad_truncate (ko_voc : Translation.Voca) (seq_len : Nat)
    (ids : List Nat) :
    (seq_len < ids.length →
      Translation.src_input ko_voc seq_len ids = ids.take seq_len ∧
        (Translation.src_input ko_voc seq_len ids).length = seq_len) ∧
    (ids.length < seq_len →
      Translation.src_input ko_voc seq_len ids =
          ids ++ List.replicate (seq_len - ids.length) ko_voc.pad ∧
        (Translation.src_input ko_voc seq_len ids).length = seq_len) := by
  constructor
  · intro h
    have hnot : ¬ ids.length < seq_len := by omega
    refine ⟨by simp [Translation.src_input, Translation.padding, hnot], ?_⟩
    simp only [Translation.src_input, Translation.padding, hnot, if_false,
      List.length_take]
    omega
  · intro h
    refine ⟨by simp [Translation.src_input, Translation.padding, h], ?_⟩
    simp only [Translation.src_input, Translation.padding, h, if_true,
      List.length_append, List.length_replicate]
    omega

/-- C8 witness: truncation of the length-3 encoding `[7, 8, 9]` at
`seq_len = 2` and padding of the length-2 encoding `[7, 8]` at
`seq_len = 4` with pad id 0. -/
theorem C8_src_input_pad_truncate_witness :
    Translation.src_input ⟨0, 1⟩ 2 [7, 8, 9] = [7, 8] ∧
      Translation.src_input ⟨0, 1⟩ 4 [7, 8] = [7, 8, 0, 0] :=
  ⟨(((C8_src_input_pad_truncate ⟨0, 1⟩ 2 [7, 8, 9]).1 (by decide)).1).trans (by decide),
   (((C8_src_input_pad_truncate ⟨0, 1⟩ 4 [7, 8]).2 (by decide)).1).trans (by decide)⟩

/-- C9: for every positive `seq_len`, `Translation.tar_input` returns a list
of length exactly `seq_len` whose head is the English start-token id
`en_voc[<s>]` and whose remaining `seq_len - 1` entries are all the Korean
pad id `ko_voc[<pad>]` — the decoder seed is padded with the
source-language pad id, not the target-language one. -/
theorem C9_tar_input_shape (ko_voc en_voc : Translation.Voca) (seq_len : Nat)
    (h : 1 ≤ seq_len) :
    Translation.tar_input ko_voc en_voc seq_len =
        en_voc.start :: List.replicate (seq_len - 1) ko_voc.pad ∧
      (Translation.tar_input ko_voc en_voc seq_len).length = seq_len := by
  have heq : Translation.tar_input ko_voc en_voc seq_len =
      en_voc.start :: List.replicate (seq_len - 1) ko_voc.pad := by
    unfold Translation.tar_input Translation.padding
    rcases Nat.lt_or_ge 1 seq_len with hlt | hge
    · simp only [List.length_singleton, hlt, if_true, List.singleton_append]
    · have h1 : seq_len = 1 := Nat.le_antisymm hge h
      subst h1
      simp
  refine ⟨heq, ?_⟩
  rw [heq]
  simp only [List.length_cons, List.length_replicate]
  omega

/-- C9 witness: with `ko_voc[<pad>] = 3`, `en_voc[<s>] = 1` and
`seq_len = 4`, the decoder seed is `[1, 3, 3, 3]`. -/
theorem C9_tar_input_shape_witness :
    Translation.tar_input ⟨3, 4⟩ ⟨0, 1⟩ 4 = [1, 3, 3, 3] :=
  ((C9_tar_input_shape ⟨3, 4⟩ ⟨0, 1⟩ 4 (by decide)).1).trans (by decide)

/-- C1: the code violates the claim.  With `step_save = 1000` and one epoch
of three batches where a `KeyboardInterrupt` arrives during the second
batch, the handler saves a checkpoint with the current epoch and step
`(0, 1)` — but the interrupt is swallowed: the loop goes on to execute the
third batch (`processed = 3` iterations, final `step = 2`) and the run ends
normally instead of the interrupt propagating.  (The first recorded save
`(0, 0)` is the periodic one at step 0.) -/
theorem C1_interrupt_swallowed :
    Trainer.trainRun 1000 [[.ok, .interrupt, .ok]] = ⟨2, [(0, 0), (0, 1)], 3⟩ := rfl

/-- C4: the code violates the claim.  With 2 epochs of 2 batches each and
the `Scheduled_Sampling` strategy: the schedule is built with length
`epochs * (batches_per_epoch + 1) = 6` (not `epochs * batches_per_epoch = 4`),
and the forward pass of epoch 1, batch 0 — global step 2 — uses
`train_ratios[0] = 1`, not entry 2 of the schedule (`3/5`): the index is the
within-epoch `enumerate` counter, which resets at every epoch boundary. -/
theorem C4_ratio_resets_each_epoch :
    (Trainer.train_ratios "Scheduled_Sampling" 2 2).length = 6 ∧
      Trainer.ratio_used "Scheduled_Sampling" 2 2 1 0 = some 1 ∧
      (Trainer.train_ratios "Scheduled_Sampling" 2 2)[2]? = some (3 / 5) ∧
      (1 : ℚ) ≠ 3 / 5 := by
  have h6 : Trainer.train_ratios "Scheduled_Sampling" 2 2 =
      [1, 4 / 5, 3 / 5, 2 / 5, 1 / 5, 0] := by
    rw [Trainer.train_ratios]
    norm_num [Trainer.total_step, Trainer.epoch_step, scheduleList_scheduled_sampling,
      Tools.linspace01, List.range_succ]
  refine ⟨?_, ?_, ?_, by norm_num⟩
  · rw [h6]
    rfl
  · rw [Trainer.ratio_used, h6]
    rfl
  · rw [h6]
    rfl

theorem foldl_valStep (l : List (ℚ × ℚ × ℚ)) (a : Trainer.ValAcc) :
    l.foldl Trainer.valStep a =
      ⟨a.total_loss + (l.map (fun m => m.1)).sum,
       a.total_accuracy + (l.map (fun m => m.2.1)).sum,
       a.total_ppl + (l.map (fun m => m.2.2)).sum,
       a.count + l.length⟩ := by
  induction l generalizing a with
  | nil => simp
  | cons m rest ih =>
    simp only [List.foldl_cons, List.map_cons, List.sum_cons, List.length_cons,
      ih, Trainer.valStep]
    rw [Trainer.ValAcc.mk.injEq]
    exact ⟨by ring, by ring, by ring, by omega⟩

/-- C7: for every non-empty validation pass, `Trainer.val` returns the
unweighted arithmetic means of the per-batch loss, accuracy, and perplexity
scalars: each returned component is the plain sum of the batch-level scalars
divided by the number of batches, with no re-weighting by batch size. -/
theorem C7_val_unweighted_mean (batches : List (ℚ × ℚ × ℚ)) (h : batches ≠ []) :
    Trainer.val batches =
      some ((batches.map (fun m => m.1)).sum / (batches.length : ℚ),
            (batches.map (fun m => m.2.1)).sum / (batches.length : ℚ),
            (batches.map (fun m => m.2.2)).sum / (batches.length : ℚ)) := by
  have hne : batches.length ≠ 0 := fun hh => h (List.length_eq_zero.mp hh)
  simp [Trainer.val, Trainer.valTotals, foldl_valStep, hne]

/-- C7 witness: the validation pass with per-batch scalars `(1, 2, 3)` and
`(3, 4, 5)` averages to `(2, 3, 4)`. -/
theorem C7_val_unweighted_mean_witness :
    Trainer.val [(1, 2, 3), (3, 4, 5)] = some (2, 3, 4) :=
  (C7_val_unweighted_mean [(1, 2, 3), (3, 4, 5)] (by simp)).trans (by norm_num)

/-- C10: when the flattened argmax indices have length `B * seq_len`
(`B` rows of `seq_len` positions each, `seq_len ≥ 1`), the decoding loop of
`Translation.batch_transform` produces exactly `B` chunks, and chunk `i` is
exactly the slice `[i*seq_len, i*seq_len + seq_len - 1)` of the flattened
indices — `seq_len - 1` predicted ids, so the final predicted position of
every row is excluded from the decoded sentence. -/
theorem C10_decode_drops_last_position (indices : List Nat) (B seq_len : Nat)
    (hs : 1 ≤ seq_len) (h : indices.length = B * seq_len) :
    (Translation.batch_decode_slices seq_len indices).length = B ∧
      ∀ i, i < B →
        (Translation.batch_decode_slices seq_len indices)[i]? =
            some ((indices.drop (i * seq_len)).take (seq_len - 1)) ∧
          ((indices.drop (i * seq_len)).take (seq_len - 1)).length = seq_len - 1 := by
  have hB : (indices.length + seq_len - 1) / seq_len = B := by
    rw [h]
    have h1 : B * seq_len + seq_len - 1 = seq_len * B + (seq_len - 1) := by
      rw [Nat.mul_comm]
      omega
    rw [h1, Nat.mul_add_div (by omega), Nat.div_eq_of_lt (by omega)]
    omega
  constructor
  · rw [Translation.batch_decode_slices, List.length_map, List.length_range, hB]
  · intro i hi
    constructor
    · rw [Translation.batch_decode_slices, List.getElem?_map, hB,
        List.getElem?_range hi]
      rfl
    · have hmul : i * seq_len + seq_len ≤ B * seq_len := by
        have : (i + 1) * seq_len ≤ B * seq_len :=
          Nat.mul_le_mul_right seq_len (Nat.succ_le_of_lt hi)
        calc i * seq_len + seq_len = (i + 1) * seq_len := by ring
          _ ≤ B * seq_len := this
      rw [List.length_take, List.length_drop, h]
      omega

/-- C10 witness: 2 rows of `seq_len = 3` flattened to `[0, 1, 2, 3, 4, 5]`:
two decoded chunks, each of the 2 first ids of its row (`[0, 1]` for row 0),
the third id of each row excluded. -/
theorem C10_decode_drops_last_position_witness :
    (Translation.batch_decode_slices 3 [0, 1, 2, 3, 4, 5]).length = 2 ∧
      (Translation.batch_decode_slices 3 [0, 1, 2, 3, 4, 5])[0]? = some [0, 1] :=
  ⟨(C10_decode_drops_last_position [0, 1, 2, 3, 4, 5] 2 3 (by decide) (by decide)).1,
   (((C10_decode_drops_last_position [0, 1, 2, 3, 4, 5] 2 3 (by decide) (by decide)).2
      0 (by decide)).1).trans (by decide)⟩
